import Mathlib

/-
  Shallow embedding of src/tracker.py (BARA949/ip-tracker).

  The file embeds the tracking request pipeline: user-agent classification
  (_parse_user_agent), client-IP resolution, map-URL derivation, visit-record
  assembly and the two endpoint handlers track_click (route /t/<token>) and
  image_tracker (route /img/<token>).

  External collaborators not under src/ are modelled per the spec:
  - geo_lookup (geo.py): per spec section 6 it returns a mapping or null on
    failure; the handlers here receive its result as an Option input.
  - load_visits/save_visits (storage.py): per spec section 6, load returns the
    previously saved sequence unchanged and save overwrites it; modelled as
    explicit state passing of the visit list.
  - datetime.now(...).isoformat(): modelled as an externally supplied string.

  Python floats are idealised as exact decimal values (mantissa, exponent)
  plus the special values inf, -inf and nan: within the range where CPython
  repr prints the shortest round-trip decimal of a value parsed from a short
  decimal literal, this matches repr exactly; scientific-notation output for
  extreme magnitudes is outside the modelled domain.  Python string methods
  (lower, strip, split, the in operator) are given structurally recursive
  definitions over character lists so that they evaluate inside the kernel;
  lower and strip are modelled on their ASCII behaviour.
-/

namespace IpTracker

/-- Idealised Python float: an exact decimal m / 10^e, or a special value. -/
inductive PyFloat where
  | finite (m : Int) (e : Nat)
  | inf
  | ninf
  | nan
deriving DecidableEq, Repr

/-- True exactly on the finite (non-inf, non-nan) floats. -/
def isFiniteFloat : PyFloat → Bool
  | .finite _ _ => true
  | _ => false

/-- Dynamic Python values that can appear in the geo-lookup mapping fields. -/
inductive PyVal where
  | vnone
  | vint (n : Int)
  | vfloat (x : PyFloat)
  | vstr (s : String)
deriving DecidableEq, Repr

/-- Python isinstance(v, (int, float)), the guard on tracker.py line 77/139. -/
def isNumericType : PyVal → Bool
  | .vint _ => true
  | .vfloat _ => true
  | _ => false

/-- Python str.lower() (ASCII behaviour). -/
def pyLower (s : String) : String := String.mk (s.data.map Char.toLower)

/-- The characters Python str.strip() removes by default (ASCII whitespace). -/
def isPySpace (c : Char) : Bool :=
  c = ' ' || c = '\t' || c = '\n' || c = '\r' || c = '\x0b' || c = '\x0c'

/-- Python str.strip(): drop leading and trailing whitespace. -/
def pyStrip (s : String) : String :=
  String.mk (((s.data.dropWhile isPySpace).reverse.dropWhile isPySpace).reverse)

/-- Python s.split(",")[0]: the characters before the first comma. -/
def beforeComma (s : String) : String :=
  String.mk (s.data.takeWhile (fun c => c != ','))

/-- s.split(",")[0].strip() on tracker.py line 69/132. -/
def firstHop (s : String) : String := pyStrip (beforeComma s)

def isDigitChar (c : Char) : Bool := '0' ≤ c && c ≤ '9'

/-- Value of a list of decimal digit characters. -/
def digitsNat (cs : List Char) : Nat :=
  cs.foldl (fun a c => a * 10 + (c.toNat - 48)) 0

def mkFin (neg : Bool) (v : Nat) (e : Nat) : PyFloat :=
  .finite (if neg then -(v : Int) else (v : Int)) e

/-- Decimal part of Python float(str): digits with an optional fractional
part, after the optional sign has been removed. -/
def parseDecCore (neg : Bool) (cs : List Char) : Option PyFloat :=
  let ipart := cs.takeWhile isDigitChar
  let rest := cs.dropWhile isDigitChar
  match rest with
  | [] => if ipart.isEmpty then none else some (mkFin neg (digitsNat ipart) 0)
  | '.' :: fs =>
      if fs.all isDigitChar && !(ipart.isEmpty && fs.isEmpty) then
        some (mkFin neg (digitsNat ipart * 10 ^ fs.length + digitsNat fs) fs.length)
      else none
  | _ => none

/-- Python float(s) on a string: surrounding whitespace is ignored, an
optional sign is followed by decimal digits with an optional fractional part,
and the words inf/infinity/nan are accepted case-insensitively.  Exponent
and underscore forms of the CPython float literal are outside the modelled
domain (none of the analysed inputs use them). -/
def strToPyFloat (s : String) : Option PyFloat :=
  let t := pyStrip s
  let tl := pyLower t
  if tl = "inf" || tl = "infinity" || tl = "+inf" || tl = "+infinity" then some .inf
  else if tl = "-inf" || tl = "-infinity" then some .ninf
  else if tl = "nan" || tl = "+nan" || tl = "-nan" then some .nan
  else
    match t.data with
    | [] => none
    | c :: cs =>
        if c = '-' then parseDecCore true cs
        else if c = '+' then parseDecCore false cs
        else parseDecCore false (c :: cs)

/-- Python float(v): succeeds on numbers and parsable strings, fails
(raises, modelled as none) on None and unparsable strings. -/
def pyFloat : PyVal → Option PyFloat
  | .vnone => none
  | .vint n => some (.finite n 0)
  | .vfloat x => some x
  | .vstr s => strToPyFloat s

/-- Drop trailing decimal zeros of the fractional part: 48.50 prints as 48.5. -/
def normFin : Int → Nat → Int × Nat
  | m, 0 => (m, 0)
  | m, e + 1 => if m % 10 = 0 then normFin (m / 10) e else (m, e + 1)

/-- CPython repr of a float (positional notation): what the f-string on
tracker.py line 82/143 interpolates. -/
def pyFloatRepr : PyFloat → String
  | .inf => "inf"
  | .ninf => "-inf"
  | .nan => "nan"
  | .finite m0 e0 =>
      let p := normFin m0 e0
      let m := p.1
      let e := p.2
      if e = 0 then toString m ++ ".0"
      else
        let sign := if m < 0 then "-" else ""
        let ds0 := (toString m.natAbs).data
        let ds := if ds0.length ≤ e then List.replicate (e + 1 - ds0.length) '0' ++ ds0 else ds0
        sign ++ String.mk (ds.take (ds.length - e)) ++ "." ++ String.mk (ds.drop (ds.length - e))

/-- Is the second list an initial segment of the first? -/
def listStartsWith : List Char → List Char → Bool
  | _, [] => true
  | [], _ :: _ => false
  | c :: cs, d :: ds => c = d && listStartsWith cs ds

/-- needle occurs contiguously somewhere in the haystack. -/
def listHasSub (needle : List Char) : List Char → Bool
  | [] => needle.isEmpty
  | d :: ds => listStartsWith (d :: ds) needle || listHasSub needle ds

/-- Python substring membership: needle in hay. -/
def pyIn (needle hay : String) : Bool := listHasSub needle.data hay.data

/-- Result of _parse_user_agent: the browser/os category pair. -/
structure UAInfo where
  browser : String
  os : String
deriving DecidableEq, Repr

/-- tracker.py lines 10-48: _parse_user_agent.  An absent header is none; an
empty string is falsy in Python, so both hit the Unknown branch. -/
def parse_user_agent (ua : Option String) : UAInfo :=
  match ua with
  | none => { browser := "Unknown", os := "Unknown" }
  | some s =>
    if s = "" then { browser := "Unknown", os := "Unknown" }
    else
      let ual := pyLower s
      let browser :=
        if pyIn "edg" ual then "Edge"
        else if pyIn "opr" ual || pyIn "opera" ual then "Opera"
        else if pyIn "chrome" ual && pyIn "safari" ual && !(pyIn "edge" ual) then "Chrome"
        else if pyIn "firefox" ual then "Firefox"
        else if pyIn "safari" ual && !(pyIn "chrome" ual) then "Safari"
        else "Other"
      let os :=
        if pyIn "windows" ual then "Windows"
        else if pyIn "android" ual then "Android"
        else if pyIn "iphone" ual || pyIn "ipad" ual || pyIn "ios" ual then "iOS"
        else if pyIn "mac os x" ual || pyIn "macintosh" ual then "macOS"
        else if pyIn "linux" ual then "Linux"
        else "Other"
      { browser := browser, os := os }

/-- The geo-lookup mapping with the keys the handlers read.  Modelled from
the spec: geo.py is not under src/; spec section 6 gives the mapping keys
country, regionName, city, lat, lon, isp, every field optional.  A missing
key makes dict.get return None, i.e. vnone. -/
structure GeoMap where
  country : PyVal := .vnone
  regionName : PyVal := .vnone
  city : PyVal := .vnone
  isp : PyVal := .vnone
  lat : PyVal := .vnone
  lon : PyVal := .vnone
deriving DecidableEq, Repr

/-- The empty dict taken when geo_lookup returns a falsy value (line 71/134):
every get on it is None. -/
def emptyGeo : GeoMap := {}

/-- The request data the two handlers read. -/
structure Request where
  xForwardedFor : Option String
  remoteAddr : Option String
  userAgent : Option String
  nextParam : Option String
  srcParam : Option String
deriving DecidableEq, Repr

/-- Startup configuration read by create_app (tracker.py lines 54-56). -/
structure Config where
  default_target : String
deriving DecidableEq, Repr

/-- One stored visit entry (the dict built on tracker.py lines 89-103). -/
structure VisitRecord where
  time : String
  ip : Option String
  country : PyVal
  region : PyVal
  city : PyVal
  lat : PyVal
  lon : PyVal
  isp : PyVal
  token : String
  user_agent : Option String
  browser : String
  os : String
  google_maps_url : Option String
deriving DecidableEq, Repr

/-- The HTTP response a handler produces: flask redirect(url), or the
rendered image_page.html with its image_url. -/
inductive Response where
  | redirect (url : String)
  | imagePage (imageUrl : String)
deriving DecidableEq, Repr

/-- One handler invocation: the record it built, the visit collection it
saved, and the response it returned. -/
structure StepResult where
  record : VisitRecord
  visits : List VisitRecord
  response : Response
deriving DecidableEq, Repr

/-- tracker.py lines 58-110: track_click.  geoResult is the return value of
geo_lookup (none on failure, per spec section 6); now is the timestamp
string; visits is the stored collection load_visits returns (storage.py is
modelled from the spec as faithful load/overwrite). -/
def track_click (cfg : Config) (token : String) (req : Request)
    (geoResult : Option GeoMap) (now : String)
    (visits : List VisitRecord) : StepResult :=
  let ip0 : Option String :=
    match req.xForwardedFor with
    | some h => some h
    | none => req.remoteAddr
  let ip : Option String :=
    match ip0 with
    | some s => if s != "" && pyIn "," s then some (firstHop s) else some s
    | none => none
  let geo := geoResult.getD emptyGeo
  let lat := geo.lat
  let lon := geo.lon
  let google_maps_url : Option String :=
    if isNumericType lat || isNumericType lon then
      match pyFloat lat, pyFloat lon with
      | some latF, some lonF =>
          some ("https://www.google.com/maps?q=" ++ pyFloatRepr latF ++ "," ++ pyFloatRepr lonF)
      | _, _ => none
    else none
  let ua_info := parse_user_agent req.userAgent
  let record : VisitRecord :=
    { time := now
      ip := ip
      country := geo.country
      region := geo.regionName
      city := geo.city
      lat := lat
      lon := lon
      isp := geo.isp
      token := token
      user_agent := req.userAgent
      browser := ua_info.browser
      os := ua_info.os
      google_maps_url := google_maps_url }
  let visits2 := visits ++ [record]
  let target_url : String :=
    match req.nextParam with
    | some s => if s != "" then s else cfg.default_target
    | none => cfg.default_target
  { record := record, visits := visits2, response := .redirect target_url }

/-- tracker.py line 170: the placeholder image URL. -/
def placeholderImageUrl : String := "https://via.placeholder.com/800x500.png?text=Image"

/-- tracker.py lines 123-171: image_tracker.  The body repeats the
track_click assembly verbatim; only the response line differs, so the
transcription below repeats it too (the configured default target is unused
by this variant). -/
def image_tracker (_cfg : Config) (token : String) (req : Request)
    (geoResult : Option GeoMap) (now : String)
    (visits : List VisitRecord) : StepResult :=
  let ip0 : Option String :=
    match req.xForwardedFor with
    | some h => some h
    | none => req.remoteAddr
  let ip : Option String :=
    match ip0 with
    | some s => if s != "" && pyIn "," s then some (firstHop s) else some s
    | none => none
  let geo := geoResult.getD emptyGeo
  let lat := geo.lat
  let lon := geo.lon
  let google_maps_url : Option String :=
    if isNumericType lat || isNumericType lon then
      match pyFloat lat, pyFloat lon with
      | some latF, some lonF =>
          some ("https://www.google.com/maps?q=" ++ pyFloatRepr latF ++ "," ++ pyFloatRepr lonF)
      | _, _ => none
    else none
  let ua_info := parse_user_agent req.userAgent
  let record : VisitRecord :=
    { time := now
      ip := ip
      country := geo.country
      region := geo.regionName
      city := geo.city
      lat := lat
      lon := lon
      isp := geo.isp
      token := token
      user_agent := req.userAgent
      browser := ua_info.browser
      os := ua_info.os
      google_maps_url := google_maps_url }
  let visits2 := visits ++ [record]
  let image_url : String :=
    match req.srcParam with
    | some s => if s != "" then s else placeholderImageUrl
    | none => placeholderImageUrl
  { record := record, visits := visits2, response := .imagePage image_url }

/-- All inputs of one handler invocation other than the stored state. -/
structure ReqInput where
  token : String
  req : Request
  geoResult : Option GeoMap
  now : String
deriving Repr

/-- The record a given input produces (it does not depend on the stored
state, so it is computed against the empty collection). -/
def recordOf (cfg : Config) (i : ReqInput) : VisitRecord :=
  (track_click cfg i.token i.req i.geoResult i.now []).record

/-- Serial execution of track_click over a list of inputs, threading the
stored visit collection through load-append-save. -/
def runTrackClicks (cfg : Config) (inputs : List ReqInput)
    (visits : List VisitRecord) : List VisitRecord :=
  inputs.foldl (fun st i => (track_click cfg i.token i.req i.geoResult i.now st).visits) visits

/-- The map-URL computation of tracker.py lines 76-84, as a function of the
two values read from the geo mapping (used to state lemmas; the handlers
compute exactly this term inline, witnessed by a definitional equality). -/
def mapsUrlFrom (lat lon : PyVal) : Option String :=
  if isNumericType lat || isNumericType lon then
    match pyFloat lat, pyFloat lon with
    | some latF, some lonF =>
        some ("https://www.google.com/maps?q=" ++ pyFloatRepr latF ++ "," ++ pyFloatRepr lonF)
    | _, _ => none
  else none

/-- The client-IP computation of tracker.py lines 67-69, as a function of the
forwarding header and the direct connection address. -/
def resolvedIpFrom (fwd remote : Option String) : Option String :=
  let ip0 : Option String :=
    match fwd with
    | some h => some h
    | none => remote
  match ip0 with
  | some s => if s != "" && pyIn "," s then some (firstHop s) else some s
  | none => none

/-- Concrete fixtures for witnesses and counterexamples. -/
def cfg0 : Config := ⟨"https://d.example/"⟩

def req0 : Request := ⟨some "1.2.3.4", none, none, none, none⟩

def reqFwd : Request := ⟨some "203.0.113.5, 10.0.0.1", some "10.9.9.9", none, none, none⟩

def reqSpace : Request := ⟨some " 203.0.113.7 ", none, none, none, none⟩

def reqNoFwd : Request := ⟨none, some "10.0.0.8", none, none, none⟩

def reqNext : Request := ⟨some "1.2.3.4", none, none, some "https://t.example/page", none⟩

def reqEmptyNext : Request := ⟨some "1.2.3.4", none, none, some "", none⟩

/-- Both coordinates are strings that parse as finite decimals. -/
def gStr : GeoMap := { lat := .vstr "48.85", lon := .vstr "2.35" }

/-- Both coordinates are genuine numbers. -/
def gNum : GeoMap := { lat := .vfloat (.finite 4885 2), lon := .vfloat (.finite 235 2) }

/-- One coordinate numeric, the other a string float() rejects. -/
def gBad : GeoMap := { lat := .vint 48, lon := .vstr "not-a-number" }

/-- The record's map URL is exactly the inline derivation of lines 74-84. -/
theorem track_click_url_eq (cfg : Config) (token : String) (req : Request)
    (geoResult : Option GeoMap) (now : String) (visits : List VisitRecord) :
    (track_click cfg token req geoResult now visits).record.google_maps_url
      = mapsUrlFrom (geoResult.getD emptyGeo).lat (geoResult.getD emptyGeo).lon := rfl

/-- The record's ip is exactly the inline resolution of lines 67-69. -/
theorem track_click_ip_eq (cfg : Config) (token : String) (req : Request)
    (geoResult : Option GeoMap) (now : String) (visits : List VisitRecord) :
    (track_click cfg token req geoResult now visits).record.ip
      = resolvedIpFrom req.xForwardedFor req.remoteAddr := rfl

/-- The saved collection is the loaded one with the new record appended. -/
theorem track_click_visits_eq (cfg : Config) (token : String) (req : Request)
    (geoResult : Option GeoMap) (now : String) (visits : List VisitRecord) :
    (track_click cfg token req geoResult now visits).visits
      = visits ++ [(track_click cfg token req geoResult now visits).record] := rfl

/-- The response is a redirect to next when truthy, else the default. -/
theorem track_click_response_eq (cfg : Config) (token : String) (req : Request)
    (geoResult : Option GeoMap) (now : String) (visits : List VisitRecord) :
    (track_click cfg token req geoResult now visits).response
      = Response.redirect
          (match req.nextParam with
           | some s => if s != "" then s else cfg.default_target
           | none => cfg.default_target) := rfl

/-- Presence of the derived URL, characterised over the guard and the two
coercions. -/
theorem mapsUrlFrom_isSome (lat lon : PyVal) :
    (mapsUrlFrom lat lon).isSome
      = ((isNumericType lat || isNumericType lon)
          && ((pyFloat lat).isSome && (pyFloat lon).isSome)) := by
  unfold mapsUrlFrom
  cases hg : (isNumericType lat || isNumericType lon) with
  | false => simp
  | true =>
    cases hla : pyFloat lat with
    | none => simp
    | some a =>
      cases hlo : pyFloat lon with
      | none => simp
      | some b => simp

/-- On a header containing a comma the first-hop branch is taken. -/
theorem resolvedIpFrom_comma (h : String) (remote : Option String)
    (hc : pyIn "," h = true) :
    resolvedIpFrom (some h) remote = some (firstHop h) := by
  have hne : (h != "") = true := by
    by_cases he : h = ""
    · subst he; exact absurd hc (by decide)
    · exact bne_iff_ne.mpr he
  unfold resolvedIpFrom
  simp [hne, hc]

/-- C3: for every user-agent string whose lower-cased form contains the
substring "edg", _parse_user_agent returns browser "Edge", regardless of any
co-occurring "chrome" or "safari" substrings. -/
theorem edg_always_classified_edge (s : String)
    (h : pyIn "edg" (pyLower s) = true) :
    (parse_user_agent (some s)).browser = "Edge" := by
  have hs : ¬ s = "" := by
    intro he
    subst he
    exact absurd h (by decide)
  simp [parse_user_agent, hs, h]

/-- Witness for C3 at a concrete user agent containing "edg", "chrome" and
"safari". -/
theorem edg_always_classified_edge_witness :
    pyIn "edg" (pyLower "Mozilla/5.0 Chrome/99.0 Safari/537.36 Edg/99.0") = true
    ∧ (parse_user_agent (some "Mozilla/5.0 Chrome/99.0 Safari/537.36 Edg/99.0")).browser
        = "Edge" :=
  ⟨by decide, edg_always_classified_edge "Mozilla/5.0 Chrome/99.0 Safari/537.36 Edg/99.0" (by decide)⟩

/-- C4: an absent or empty user agent classifies as Unknown/Unknown, which
differs from the Other/Other fallback a non-empty unmatched value gets. -/
theorem absent_or_empty_ua_unknown :
    parse_user_agent none = { browser := "Unknown", os := "Unknown" }
    ∧ parse_user_agent (some "") = { browser := "Unknown", os := "Unknown" }
    ∧ parse_user_agent (some "curl/8.0") = { browser := "Other", os := "Other" }
    ∧ (parse_user_agent none).browser ≠ (parse_user_agent (some "curl/8.0")).browser
    ∧ (parse_user_agent none).os ≠ (parse_user_agent (some "curl/8.0")).os := by
  refine ⟨rfl, by decide, by decide, by decide, by decide⟩

/-- C5: with a forwarding header containing a comma-separated chain, the
record's ip is the first entry with surrounding whitespace stripped; with no
forwarding header it is the direct connection address (which carries no
comma). -/
theorem forwarded_chain_first_hop (cfg : Config) (token : String)
    (req : Request) (geoResult : Option GeoMap) (now : String)
    (visits : List VisitRecord) :
    (∀ h, req.xForwardedFor = some h → pyIn "," h = true →
      (track_click cfg token req geoResult now visits).record.ip = some (firstHop h))
    ∧ (req.xForwardedFor = none →
       (∀ s, req.remoteAddr = some s → pyIn "," s = false) →
       (track_click cfg token req geoResult now visits).record.ip = req.remoteAddr) := by
  constructor
  · intro h hf hc
    rw [track_click_ip_eq, hf]
    exact resolvedIpFrom_comma h req.remoteAddr hc
  · intro hf hr
    rw [track_click_ip_eq, hf]
    cases hrem : req.remoteAddr with
    | none => simp [resolvedIpFrom]
    | some s =>
      have hc := hr s hrem
      simp [resolvedIpFrom, hc]

/-- Witness for C5: the spec's scenario header and a plain remote address. -/
theorem forwarded_chain_first_hop_witness :
    (track_click cfg0 "tok" reqFwd none "t0" []).record.ip = some "203.0.113.5"
    ∧ (track_click cfg0 "tok" reqNoFwd none "t0" []).record.ip = some "10.0.0.8" := by
  constructor
  · have h := (forwarded_chain_first_hop cfg0 "tok" reqFwd none "t0" []).1
      "203.0.113.5, 10.0.0.1" rfl (by decide)
    exact h.trans (by decide)
  · have h := (forwarded_chain_first_hop cfg0 "tok" reqNoFwd none "t0" []).2
      rfl (by intro s hs; cases hs; decide)
    exact h.trans (by decide)

/-- C10: with a forwarding header that contains no comma, the record's ip is
the header value verbatim, whitespace untrimmed. -/
theorem single_hop_header_verbatim (cfg : Config) (token : String)
    (req : Request) (geoResult : Option GeoMap) (now : String)
    (visits : List VisitRecord) (h : String) :
    req.xForwardedFor = some h → pyIn "," h = false →
    (track_click cfg token req geoResult now visits).record.ip = some h := by
  intro hf hc
  rw [track_click_ip_eq, hf]
  simp [resolvedIpFrom, hc]

/-- Witness for C10: a padded single-hop header is stored with its spaces,
and differs from its stripped form. -/
theorem single_hop_header_verbatim_witness :
    (track_click cfg0 "tok" reqSpace none "t0" []).record.ip = some " 203.0.113.7 "
    ∧ some " 203.0.113.7 " ≠ some (pyStrip " 203.0.113.7 ") :=
  ⟨single_hop_header_verbatim cfg0 "tok" reqSpace none "t0" [] " 203.0.113.7 " rfl (by decide),
   by decide⟩

/-- C1 counterexample: both coordinates are strings that parse as finite
numbers ("48.85" and "2.35"), yet the constructed record's google_maps_url
is null, because the isinstance guard requires a numeric type.  The claimed
iff ("non-null if and only if both values parse as finite numbers") is
therefore false on this input. -/
theorem maps_url_parse_iff_counterexample :
    (pyFloat gStr.lat).any isFiniteFloat = true
    ∧ (pyFloat gStr.lon).any isFiniteFloat = true
    ∧ (track_click cfg0 "tok" req0 (some gStr) "t0" []).record.google_maps_url = none := by
  refine ⟨by decide, by decide, by decide⟩

/-- C1 (amended): the record's google_maps_url is non-null iff at least one
of the two geo values is of numeric type and float() succeeds on both; when
non-null it equals the fixed template populated with the two coerced values
in float formatting. -/
theorem maps_url_guard_and_template (cfg : Config) (token : String)
    (req : Request) (g : GeoMap) (now : String) (visits : List VisitRecord) :
    (((track_click cfg token req (some g) now visits).record.google_maps_url).isSome
        = ((isNumericType g.lat || isNumericType g.lon)
            && ((pyFloat g.lat).isSome && (pyFloat g.lon).isSome)))
    ∧ (∀ latF lonF, (isNumericType g.lat || isNumericType g.lon) = true →
        pyFloat g.lat = some latF → pyFloat g.lon = some lonF →
        (track_click cfg token req (some g) now visits).record.google_maps_url
          = some ("https://www.google.com/maps?q=" ++ pyFloatRepr latF ++ ","
              ++ pyFloatRepr lonF)) := by
  constructor
  · rw [track_click_url_eq]
    exact mapsUrlFrom_isSome g.lat g.lon
  · intro latF lonF hg hla hlo
    rw [track_click_url_eq]
    simp [mapsUrlFrom, hg, hla, hlo]

/-- Witness for the amended C1 at the spec's scenario lat 48.85, lon 2.35. -/
theorem maps_url_guard_and_template_witness :
    (track_click cfg0 "tok" req0 (some gNum) "t0" []).record.google_maps_url
      = some "https://www.google.com/maps?q=48.85,2.35" := by
  have h := (maps_url_guard_and_template cfg0 "tok" req0 gNum "t0" []).2
    (PyFloat.finite 4885 2) (PyFloat.finite 235 2) (by decide) (by decide) (by decide)
  exact h.trans (by decide)

/-- C2: when neither value is of numeric type no coercion is attempted and
the URL is null whatever the values are; when the guard holds but float()
fails on either value, the URL is silently null and the handler still
returns its redirect response. -/
theorem coercion_guard_and_silent_fallback (cfg : Config) (token : String)
    (req : Request) (g : GeoMap) (now : String) (visits : List VisitRecord) :
    ((isNumericType g.lat || isNumericType g.lon) = false →
      (track_click cfg token req (some g) now visits).record.google_maps_url = none)
    ∧ ((isNumericType g.lat || isNumericType g.lon) = true →
       (pyFloat g.lat = none ∨ pyFloat g.lon = none) →
       (track_click cfg token req (some g) now visits).record.google_maps_url = none
       ∧ ∃ u, (track_click cfg token req (some g) now visits).response
           = Response.redirect u) := by
  constructor
  · intro hg
    rw [track_click_url_eq]
    simp [mapsUrlFrom, hg]
  · intro hg hfail
    refine ⟨?_, ⟨_, track_click_response_eq cfg token req (some g) now visits⟩⟩
    rw [track_click_url_eq]
    rcases hfail with hla | hlo
    · simp [mapsUrlFrom, hg, hla]
    · cases hl2 : pyFloat g.lat with
      | none => simp [mapsUrlFrom, hg, hl2]
      | some a => simp [mapsUrlFrom, hg, hl2, hlo]

/-- Witness for C2: int lat with an unparsable string lon; the URL is null
and the request still redirects. -/
theorem coercion_guard_and_silent_fallback_witness :
    (track_click cfg0 "tok" req0 (some gBad) "t0" []).record.google_maps_url = none :=
  ((coercion_guard_and_silent_fallback cfg0 "tok" req0 gBad "t0" []).2
    (by decide) (Or.inr (by decide))).1

/-- C6: on a null geo-lookup result the record's country, region, city, isp,
lat, lon and google_maps_url are all null, and both handlers still produce
their response (a redirect, resp. an image page). -/
theorem null_geo_all_null_still_responds (cfg : Config) (token : String)
    (req : Request) (now : String) (visits : List VisitRecord) :
    (track_click cfg token req none now visits).record.country = PyVal.vnone
    ∧ (track_click cfg token req none now visits).record.region = PyVal.vnone
    ∧ (track_click cfg token req none now visits).record.city = PyVal.vnone
    ∧ (track_click cfg token req none now visits).record.isp = PyVal.vnone
    ∧ (track_click cfg token req none now visits).record.lat = PyVal.vnone
    ∧ (track_click cfg token req none now visits).record.lon = PyVal.vnone
    ∧ (track_click cfg token req none now visits).record.google_maps_url = none
    ∧ (∃ u, (track_click cfg token req none now visits).response = Response.redirect u)
    ∧ (image_tracker cfg token req none now visits).record.google_maps_url = none
    ∧ (∃ u, (image_tracker cfg token req none now visits).response = Response.imagePage u) :=
  ⟨rfl, rfl, rfl, rfl, rfl, rfl, rfl, ⟨_, rfl⟩, rfl, ⟨_, rfl⟩⟩

/-- C7: serial recordings are append-only.  Running N recordings in a row
yields exactly the N constructed records appended to the initial collection
in call order; each single recording saves the loaded collection with
exactly one new record appended, leaving every prior record unchanged. -/
theorem serial_recordings_append_only (cfg : Config) (inputs : List ReqInput)
    (init : List VisitRecord) :
    runTrackClicks cfg inputs init = init ++ inputs.map (recordOf cfg)
    ∧ (runTrackClicks cfg inputs init).length = init.length + inputs.length
    ∧ ∀ (i : ReqInput) (st : List VisitRecord),
        (track_click cfg i.token i.req i.geoResult i.now st).visits
          = st ++ [(track_click cfg i.token i.req i.geoResult i.now st).record] := by
  have main : ∀ (is : List ReqInput) (st : List VisitRecord),
      runTrackClicks cfg is st = st ++ is.map (recordOf cfg) := by
    intro is
    induction is with
    | nil => intro st; simp [runTrackClicks]
    | cons i is ih =>
      intro st
      have hstep : (track_click cfg i.token i.req i.geoResult i.now st).visits
          = st ++ [recordOf cfg i] := rfl
      show runTrackClicks cfg is (track_click cfg i.token i.req i.geoResult i.now st).visits
          = st ++ (i :: is).map (recordOf cfg)
      rw [hstep, ih]
      simp
  refine ⟨main inputs init, ?_, fun i st => track_click_visits_eq cfg i.token i.req i.geoResult i.now st⟩
  rw [main inputs init]
  simp

/-- C8 counterexample: with next supplied but empty, the response is a
redirect to the configured default target, not to the caller-supplied value;
the claim's "default only when next is absent" is false on this input. -/
theorem redirect_empty_next_counterexample :
    reqEmptyNext.nextParam = some ""
    ∧ (track_click cfg0 "tok" reqEmptyNext none "t0" []).response
        = Response.redirect cfg0.default_target
    ∧ (track_click cfg0 "tok" reqEmptyNext none "t0" []).response
        ≠ Response.redirect "" := by
  refine ⟨rfl, rfl, by decide⟩

/-- C8 (amended): every track_click invocation appends exactly one record to
storage, whatever the next parameter is; the response is a redirect to next
when it is present and non-empty, otherwise to the configured default
target. -/
theorem redirect_records_once_and_targets (cfg : Config) (token : String)
    (req : Request) (geoResult : Option GeoMap) (now : String)
    (visits : List VisitRecord) :
    (track_click cfg token req geoResult now visits).visits
        = visits ++ [(track_click cfg token req geoResult now visits).record]
    ∧ ((req.nextParam = none ∨ req.nextParam = some "") →
        (track_click cfg token req geoResult now visits).response
          = Response.redirect cfg.default_target)
    ∧ (∀ s, req.nextParam = some s → s ≠ "" →
        (track_click cfg token req geoResult now visits).response
          = Response.redirect s) := by
  refine ⟨track_click_visits_eq cfg token req geoResult now visits, ?_, ?_⟩
  · intro habs
    rw [track_click_response_eq]
    rcases habs with hn | hn
    · rw [hn]
    · rw [hn]
      simp
  · intro s hn hne
    rw [track_click_response_eq, hn]
    simp [hne]

/-- Witness for the amended C8: a concrete next parameter is followed, and
with no next parameter the stored collection grows by the one record. -/
theorem redirect_records_once_and_targets_witness :
    (track_click cfg0 "tok" reqNext none "t0" []).response
        = Response.redirect "https://t.example/page"
    ∧ (track_click cfg0 "tok" req0 none "t0" []).response
        = Response.redirect "https://d.example/" := by
  constructor
  · exact (redirect_records_once_and_targets cfg0 "tok" reqNext none "t0" []).2.2
      "https://t.example/page" rfl (by decide)
  · have h := (redirect_records_once_and_targets cfg0 "tok" req0 none "t0" []).2.1
      (Or.inl rfl)
    exact h.trans (by decide)

/-- C9: on identical inputs the image endpoint builds exactly the record the
redirect endpoint builds and performs the identical load-append-save update;
the duplicated assembly pipelines are the same function. -/
theorem image_and_redirect_assembly_equal (cfg : Config) (token : String)
    (req : Request) (geoResult : Option GeoMap) (now : String)
    (visits : List VisitRecord) :
    (image_tracker cfg token req geoResult now visits).record
        = (track_click cfg token req geoResult now visits).record
    ∧ (image_tracker cfg token req geoResult now visits).visits
        = (track_click cfg token req geoResult now visits).visits :=
  ⟨rfl, rfl⟩

end IpTracker
